import Mathlib

/-!
# Loan Eligibility API — verification of the orchestration core

Shallow embedding of the loan-eligibility service (Go implementation in
`main.go`, the variant with retry helpers and environment configuration).
Go `float64` values are modelled by exact rationals `ℚ`; Go `int` by `Int`;
`math.Round` (round half away from zero) by `goRound`.  Upstream HTTP calls
are modelled by oracles giving the wire-level outcome of each attempt, and
the handler returns, besides its response, a trace recording how many
salary/credit attempts were made and whether the decision rules ran.
-/

namespace LoanAPI

/-- Go struct `LoanRequest`: national id, loan amount, term in months. -/
structure LoanRequest where
  nationalID : String
  loanAmount : ℚ
  termMonths : Int
  deriving Repr, DecidableEq

/-- Go struct `SalaryResponse`: national id and monthly salary. -/
structure SalaryResponse where
  nationalID : String
  monthlySalary : ℚ
  deriving Repr, DecidableEq

/-- Go struct `CreditResponse`: national id, credit score, active defaults,
active loans. -/
structure CreditResponse where
  nationalID : String
  creditScore : Int
  activeDefaults : Int
  activeLoans : Int
  deriving Repr, DecidableEq

/-- Go `math.Round`: nearest integer, rounding half away from zero. -/
def goRound (x : ℚ) : ℚ :=
  if 0 ≤ x then (⌊x + 1/2⌋ : ℤ) else (⌈x - 1/2⌉ : ℤ)

/-- Function `amortizedMonthlyPayment` from the source: 0 on non-positive term
or principal; straight-line `loanAmount/termMonths` at zero monthly rate;
otherwise the amortizing formula; result rounded to 2 decimals. -/
def amortizedMonthlyPayment (loanAmount : ℚ) (termMonths : Int)
    (annualInterestPercent : ℚ) : ℚ :=
  if termMonths ≤ 0 ∨ loanAmount ≤ 0 then 0
  else
    let monthlyRate := annualInterestPercent / 100 / 12
    if monthlyRate = 0 then
      goRound (loanAmount / (termMonths : ℚ) * 100) / 100
    else
      let power := (1 + monthlyRate) ^ termMonths.toNat
      let payment := loanAmount * (monthlyRate * power) / (power - 1)
      goRound (payment * 100) / 100

/-- Errors produced by `callSalaryAPI` / `callCreditAPI`: the Go `httpError`
struct (non-200 status with body), or a transport-level error (failed
request or undecodable body). -/
inductive UpstreamError where
  | httpError (statusCode : Int) (body : String)
  | transport (detail : String)
  deriving Repr, DecidableEq

/-- Rendering of `httpError.Error()` / the transport error string, used for
the `detail` field of the 502 envelope. -/
def UpstreamError.errString : UpstreamError → String
  | .httpError code body => "http error: " ++ toString code ++ " - " ++ body
  | .transport d => d

/-- Wire-level outcome of one HTTP attempt against an upstream: either the
round trip itself failed, or a response arrived with a status code, a body,
and (when the body is well-formed JSON of the expected shape) a decoded
value. -/
inductive WireResult (α : Type) where
  | netErr (detail : String)
  | resp (statusCode : Int) (body : String) (decoded : Option α)
  deriving Repr

/-- Function `callSalaryAPI` from the source: a transport error is returned
as-is; a non-200 status becomes `httpError(status, body)`; a 200 response is
decoded, a decode failure being again an error. -/
def callSalaryAPI (wire : WireResult SalaryResponse) :
    Except UpstreamError SalaryResponse :=
  match wire with
  | .netErr d => .error (.transport d)
  | .resp code body decoded =>
    if code ≠ 200 then .error (.httpError code body)
    else
      match decoded with
      | some sr => .ok sr
      | none => .error (.transport "invalid response body")

/-- Function `callCreditAPI` from the source, same classification as
`callSalaryAPI`. -/
def callCreditAPI (wire : WireResult CreditResponse) :
    Except UpstreamError CreditResponse :=
  match wire with
  | .netErr d => .error (.transport d)
  | .resp code body decoded =>
    if code ≠ 200 then .error (.httpError code body)
    else
      match decoded with
      | some cr => .ok cr
      | none => .error (.transport "invalid response body")

/-- Loop body of `withRetrySalary`: `i` is the number of calls of `fn` made
so far, `remaining` the attempts left, `lastErr` the last error seen (`none`
models Go's nil `err` before the first call).  Returns the Go result pair
together with the total number of attempts actually made. -/
def retrySalaryGo (fn : Nat → Except UpstreamError SalaryResponse)
    (lastErr : Option UpstreamError) (i remaining : Nat) :
    Except UpstreamError SalaryResponse × Nat :=
  match remaining with
  | 0 =>
    (match lastErr with
     | some e => (.error e, i)
     | none => (.ok ⟨"", 0⟩, i))
  | n + 1 =>
    match fn i with
    | .ok v => (.ok v, i + 1)
    | .error e => retrySalaryGo fn (some e) (i + 1) n

/-- Function `withRetrySalary` from the source: calls `fn` up to `attempts`
times, returning the first success, else the last error.  The oracle `fn`
gives the outcome of the j-th invocation. -/
def withRetrySalary (attempts : Nat)
    (fn : Nat → Except UpstreamError SalaryResponse) :
    Except UpstreamError SalaryResponse × Nat :=
  retrySalaryGo fn none 0 attempts

/-- Loop body of `withRetryCredit`, as `retrySalaryGo`. -/
def retryCreditGo (fn : Nat → Except UpstreamError CreditResponse)
    (lastErr : Option UpstreamError) (i remaining : Nat) :
    Except UpstreamError CreditResponse × Nat :=
  match remaining with
  | 0 =>
    (match lastErr with
     | some e => (.error e, i)
     | none => (.ok ⟨"", 0, 0, 0⟩, i))
  | n + 1 =>
    match fn i with
    | .ok v => (.ok v, i + 1)
    | .error e => retryCreditGo fn (some e) (i + 1) n

/-- Function `withRetryCredit` from the source: calls `fn` up to `attempts`
times, returning the first success, else the last error. -/
def withRetryCredit (attempts : Nat)
    (fn : Nat → Except UpstreamError CreditResponse) :
    Except UpstreamError CreditResponse × Nat :=
  retryCreditGo fn none 0 attempts

/-- Go struct `LoanResponse`.  Pointer fields (`*SalaryResponse`,
`*CreditResponse`, `*LoanRequest`) are `Option`s, `nil` being `none`;
for `reason` (a Go string with `omitempty`) the empty string means the
field is omitted from the JSON. -/
structure LoanResponse where
  status : String
  reason : String := ""
  reasons : List String := []
  monthlyPayment : ℚ := 0
  annualInterest : ℚ := 0
  salaryEcho : Option SalaryResponse := none
  creditEcho : Option CreditResponse := none
  applicationEcho : Option LoanRequest := none
  deriving Repr, DecidableEq

/-- JSON error envelope used for the 500 config error and the 502 gateway
errors (`detail` is only present on the 502s). -/
structure ErrorEnvelope where
  error : String
  message : String
  detail : Option String
  requestID : String
  deriving Repr, DecidableEq

/-- Result of one invocation of `loanHandler`: a plain-text `http.Error`
response, a JSON error envelope with a status code, or a 200 decision. -/
inductive HandlerResult where
  | plainError (status : Int) (msg : String)
  | jsonError (status : Int) (env : ErrorEnvelope)
  | decision (resp : LoanResponse)
  deriving Repr, DecidableEq

/-- Ghost trace of one invocation of `loanHandler`: how many salary and
credit attempts went out, and whether the decision rules were evaluated. -/
structure Trace where
  salaryAttempts : Nat
  creditAttempts : Nat
  decisionInvoked : Bool
  deriving Repr, DecidableEq

/-- Environment of the handler.  `salaryURL`/`creditURL` model
`os.Getenv("SALARY_API_URL")` / `os.Getenv("CREDIT_API_URL")` (the empty
string meaning unset).  `annualRateEnv` models `ANNUAL_INTEREST_PERCENT`:
`none` when unset or empty, `some none` when set to a string that
`strconv.ParseFloat` rejects, `some (some f)` when it parses to `f`. -/
structure Config where
  salaryURL : String
  creditURL : String
  annualRateEnv : Option (Option ℚ)

/-- Annual rate used by the handler: the parsed environment value when the
variable is set and parses, else the default 20.0. -/
def effectiveRate (cfg : Config) : ℚ :=
  match cfg.annualRateEnv with
  | some (some f) => f
  | _ => 20

def reasonSalary3x : String :=
  "Monthly salary is less than 3x the amortized monthly repayment"

def reasonScore : String := "Credit score below 600"

def reasonDefaults : String := "Active defaults present"

def reasonLoans : String := "More than 3 active loans"

/-- Decision rules of `loanHandler` (the four sequential `if`/`append`
blocks): the ordered list of decline reasons. -/
def decisionReasons (salary : SalaryResponse) (credit : CreditResponse)
    (monthly : ℚ) : List String :=
  let reasons : List String := []
  let reasons := if salary.monthlySalary < 3 * monthly
    then reasons ++ [reasonSalary3x] else reasons
  let reasons := if credit.creditScore < 600
    then reasons ++ [reasonScore] else reasons
  let reasons := if credit.activeDefaults > 0
    then reasons ++ [reasonDefaults] else reasons
  let reasons := if credit.activeLoans > 3
    then reasons ++ [reasonLoans] else reasons
  reasons

/-- Tail of `loanHandler` after both upstream facts are resolved: evaluate
the rules and build the APPROVED or DECLINED response. -/
def decide (request : LoanRequest) (salary : SalaryResponse)
    (credit : CreditResponse) (monthly annualRate : ℚ) : LoanResponse :=
  let reasons := decisionReasons salary credit monthly
  match reasons with
  | [] =>
    { status := "APPROVED"
      monthlyPayment := monthly
      annualInterest := annualRate
      salaryEcho := some salary
      creditEcho := some credit
      applicationEcho := some request }
  | r0 :: _ =>
    { status := "DECLINED"
      reason := r0
      reasons := reasons
      monthlyPayment := monthly
      annualInterest := annualRate
      salaryEcho := some salary
      creditEcho := some credit
      applicationEcho := some request }

/-- Salary-onward stage of `loanHandler` (after validation and config
check): salary call with retry, 404 → partial decline, other error → 502,
then the credit call likewise, then the decision rules. -/
def processLoan (request : LoanRequest) (annualRate : ℚ) (reqID : String)
    (salaryWire : Nat → WireResult SalaryResponse)
    (creditWire : Nat → WireResult CreditResponse) :
    HandlerResult × Trace :=
  let sres := withRetrySalary 3 (fun i => callSalaryAPI (salaryWire i))
  match sres.1 with
  | .error e =>
    match e with
    | .httpError code _ =>
      if code = 404 then
        let monthly := amortizedMonthlyPayment request.loanAmount
          request.termMonths annualRate
        (.decision
          { status := "DECLINED"
            reason := "Salary record not found"
            reasons := ["Salary record not found"]
            monthlyPayment := monthly
            annualInterest := annualRate
            salaryEcho := none
            creditEcho := none
            applicationEcho := some request },
         ⟨sres.2, 0, false⟩)
      else
        (.jsonError 502
          ⟨"salary_service_unavailable", "Failed to verify salary",
           some e.errString, reqID⟩,
         ⟨sres.2, 0, false⟩)
    | .transport _ =>
      (.jsonError 502
        ⟨"salary_service_unavailable", "Failed to verify salary",
         some e.errString, reqID⟩,
       ⟨sres.2, 0, false⟩)
  | .ok salary =>
    let cres := withRetryCredit 3 (fun i => callCreditAPI (creditWire i))
    match cres.1 with
    | .error e =>
      match e with
      | .httpError code _ =>
        if code = 404 then
          let monthly := amortizedMonthlyPayment request.loanAmount
            request.termMonths annualRate
          (.decision
            { status := "DECLINED"
              reason := "Credit record not found"
              reasons := ["Credit record not found"]
              monthlyPayment := monthly
              annualInterest := annualRate
              salaryEcho := some salary
              creditEcho := none
              applicationEcho := some request },
           ⟨sres.2, cres.2, false⟩)
        else
          (.jsonError 502
            ⟨"credit_service_unavailable", "Failed to verify credit",
             some e.errString, reqID⟩,
           ⟨sres.2, cres.2, false⟩)
      | .transport _ =>
        (.jsonError 502
          ⟨"credit_service_unavailable", "Failed to verify credit",
           some e.errString, reqID⟩,
         ⟨sres.2, cres.2, false⟩)
    | .ok credit =>
      let monthly := amortizedMonthlyPayment request.loanAmount
        request.termMonths annualRate
      (.decision (decide request salary credit monthly annualRate),
       ⟨sres.2, cres.2, true⟩)

/-- Function `loanHandler` from the source.  `method` is the HTTP method,
`body` the decoded request body (`none` when JSON decoding fails), `cfg`
the environment, `reqID` the correlation id from `getOrCreateReqID`, and
the two wire oracles give the outcome of each upstream attempt. -/
def loanHandler (method : String) (body : Option LoanRequest) (cfg : Config)
    (reqID : String)
    (salaryWire : Nat → WireResult SalaryResponse)
    (creditWire : Nat → WireResult CreditResponse) :
    HandlerResult × Trace :=
  if method ≠ "POST" then
    (.plainError 405 "Only POST requests allowed", ⟨0, 0, false⟩)
  else
    match body with
    | none => (.plainError 400 "Invalid request body", ⟨0, 0, false⟩)
    | some request =>
      if request.nationalID = "" ∨ request.loanAmount ≤ 0 ∨
          request.termMonths ≤ 0 then
        (.plainError 400 "Missing or invalid fields", ⟨0, 0, false⟩)
      else
        let annualRate := effectiveRate cfg
        if cfg.salaryURL = "" ∨ cfg.creditURL = "" then
          (.jsonError 500
            ⟨"config_error", "Service URLs not configured", none, reqID⟩,
           ⟨0, 0, false⟩)
        else
          processLoan request annualRate reqID salaryWire creditWire

/-- Classification predicate: is this error the 404 "record not found"
answer (the branch `loanHandler` treats as a business decline)? -/
def UpstreamError.isNotFound : UpstreamError → Bool
  | .httpError code _ => code == 404
  | .transport _ => false

/-- Rule table of the Decision Engine as the spec states it: four
(condition, reason) pairs in the fixed order salary, score, defaults,
loans. -/
def specRules (salary : SalaryResponse) (credit : CreditResponse)
    (monthly : ℚ) : List (Bool × String) :=
  [(Decidable.decide (salary.monthlySalary < 3 * monthly), reasonSalary3x),
   (Decidable.decide (credit.creditScore < 600), reasonScore),
   (Decidable.decide (credit.activeDefaults > 0), reasonDefaults),
   (Decidable.decide (credit.activeLoans > 3), reasonLoans)]

/-- Spec-side reason list: the reason of every violated rule, in table
order. -/
def specReasons (salary : SalaryResponse) (credit : CreditResponse)
    (monthly : ℚ) : List String :=
  (specRules salary credit monthly).filterMap
    (fun p => if p.1 then some p.2 else none)

-- Retry-loop unrolling lemmas.

theorem retrySalary_all_fail (fn : Nat → Except UpstreamError SalaryResponse)
    (e0 e1 e2 : UpstreamError) (h0 : fn 0 = .error e0) (h1 : fn 1 = .error e1)
    (h2 : fn 2 = .error e2) :
    withRetrySalary 3 fn = (.error e2, 3) := by
  simp [withRetrySalary, retrySalaryGo, h0, h1, h2]

theorem retrySalary_first_ok (fn : Nat → Except UpstreamError SalaryResponse)
    (v : SalaryResponse) (h0 : fn 0 = .ok v) :
    withRetrySalary 3 fn = (.ok v, 1) := by
  simp [withRetrySalary, retrySalaryGo, h0]

theorem retrySalary_fail_then_ok
    (fn : Nat → Except UpstreamError SalaryResponse) (e : UpstreamError)
    (v : SalaryResponse) (h0 : fn 0 = .error e) (h1 : fn 1 = .ok v) :
    withRetrySalary 3 fn = (.ok v, 2) := by
  simp [withRetrySalary, retrySalaryGo, h0, h1]

theorem retryCredit_all_fail (fn : Nat → Except UpstreamError CreditResponse)
    (e0 e1 e2 : UpstreamError) (h0 : fn 0 = .error e0) (h1 : fn 1 = .error e1)
    (h2 : fn 2 = .error e2) :
    withRetryCredit 3 fn = (.error e2, 3) := by
  simp [withRetryCredit, retryCreditGo, h0, h1, h2]

theorem retryCredit_first_ok (fn : Nat → Except UpstreamError CreditResponse)
    (v : CreditResponse) (h0 : fn 0 = .ok v) :
    withRetryCredit 3 fn = (.ok v, 1) := by
  simp [withRetryCredit, retryCreditGo, h0]

theorem retryCredit_fail_then_ok
    (fn : Nat → Except UpstreamError CreditResponse) (e : UpstreamError)
    (v : CreditResponse) (h0 : fn 0 = .error e) (h1 : fn 1 = .ok v) :
    withRetryCredit 3 fn = (.ok v, 2) := by
  simp [withRetryCredit, retryCreditGo, h0, h1]

/-- C6 counterexample: the payment for principal 50000, term 12, annual rate
20% is 4631.73, not the 4632.27 the claim pins. -/
theorem c6_pinned_value_refuted :
    amortizedMonthlyPayment 50000 12 20 = 463173 / 100 ∧
    (463173 / 100 : ℚ) ≠ 4632.27 := by
  constructor
  · norm_num [amortizedMonthlyPayment, goRound,
      show Int.toNat 12 = 12 from rfl, Int.floor_eq_iff]
  · norm_num

/-- C6 (amended): for positive principal and term and nonzero monthly rate,
the payment function applies the standard amortizing formula with
`monthlyRate = annualRatePercent/100/12`, rounded to 2 decimals half away
from zero; in particular `payment(50000, 12, 20) = 4631.73`. -/
theorem c6_amortized_formula :
    (∀ (p : ℚ) (n : Int) (r : ℚ), 0 < p → 0 < n → r / 100 / 12 ≠ 0 →
      amortizedMonthlyPayment p n r =
        goRound (p * (r / 100 / 12 * (1 + r / 100 / 12) ^ n.toNat) /
          ((1 + r / 100 / 12) ^ n.toNat - 1) * 100) / 100) ∧
    amortizedMonthlyPayment 50000 12 20 = 4631.73 := by
  constructor
  · intro p n r hp hn hr
    simp only [amortizedMonthlyPayment]
    rw [if_neg (not_or.mpr ⟨not_le.mpr hn, not_le.mpr hp⟩), if_neg hr]
  · norm_num [amortizedMonthlyPayment, goRound,
      show Int.toNat 12 = 12 from rfl, Int.floor_eq_iff]

/-- C6 witness: the amended formula instantiated at (50000, 12, 20). -/
theorem c6_amortized_formula_witness :
    amortizedMonthlyPayment 50000 12 20 =
      goRound (50000 * (20 / 100 / 12 * (1 + 20 / 100 / 12) ^ (12 : Int).toNat) /
        ((1 + 20 / 100 / 12) ^ (12 : Int).toNat - 1) * 100) / 100 :=
  c6_amortized_formula.1 50000 12 20 (by norm_num) (by norm_num) (by norm_num)

/-- C7: the payment is 0 whenever the term or the principal is non-positive
(hence at principal 0 or term 0); at zero monthly rate it is the
straight-line `principal/termMonths` rounded to 2 decimals, so
`payment(12000, 12, 0) = 1000`. -/
theorem c7_degenerate_and_zero_rate :
    (∀ (p : ℚ) (n : Int) (r : ℚ), n ≤ 0 ∨ p ≤ 0 →
      amortizedMonthlyPayment p n r = 0) ∧
    (∀ (n : Int) (r : ℚ), amortizedMonthlyPayment 0 n r = 0) ∧
    (∀ (p r : ℚ), amortizedMonthlyPayment p 0 r = 0) ∧
    (∀ (p : ℚ) (n : Int) (r : ℚ), 0 < p → 0 < n → r / 100 / 12 = 0 →
      amortizedMonthlyPayment p n r = goRound (p / (n : ℚ) * 100) / 100) ∧
    amortizedMonthlyPayment 12000 12 0 = 1000 := by
  refine ⟨?_, ?_, ?_, ?_, ?_⟩
  · intro p n r h
    simp only [amortizedMonthlyPayment]
    rw [if_pos h]
  · intro n r
    simp only [amortizedMonthlyPayment]
    rw [if_pos (Or.inr le_rfl)]
  · intro p r
    simp only [amortizedMonthlyPayment]
    rw [if_pos (Or.inl le_rfl)]
  · intro p n r hp hn hr
    simp only [amortizedMonthlyPayment]
    rw [if_neg (not_or.mpr ⟨not_le.mpr hn, not_le.mpr hp⟩), if_pos hr]
  · norm_num [amortizedMonthlyPayment, goRound, Int.floor_eq_iff]

/-- C7 witness: the degenerate and zero-rate clauses instantiated at
concrete inputs. -/
theorem c7_degenerate_and_zero_rate_witness :
    amortizedMonthlyPayment 5000 (-3) 20 = 0 ∧
    amortizedMonthlyPayment 12000 12 0 = goRound (12000 / 12 * 100) / 100 :=
  ⟨c7_degenerate_and_zero_rate.1 5000 (-3) 20 (Or.inl (by norm_num)),
   c7_degenerate_and_zero_rate.2.2.2.1 12000 12 0 (by norm_num) (by norm_num)
     (by norm_num)⟩

/-- Expansion of the sequential reason-accumulation of the Decision Engine
into a concatenation of four optional singletons, one per rule, in rule
order. -/
theorem decisionReasons_expand (s : SalaryResponse) (c : CreditResponse)
    (m : ℚ) :
    decisionReasons s c m =
      (if s.monthlySalary < 3 * m then [reasonSalary3x] else []) ++
      ((if c.creditScore < 600 then [reasonScore] else []) ++
      ((if c.activeDefaults > 0 then [reasonDefaults] else []) ++
      (if c.activeLoans > 3 then [reasonLoans] else []))) := by
  unfold decisionReasons
  split_ifs <;> simp

/-- C2: the Decision Engine's reason list is exactly the spec's rule table
filtered to the violated rules, in the fixed order; the outcome is APPROVED
iff no reason accumulates, and otherwise DECLINED carrying the full list
with its head duplicated as the primary reason. -/
theorem c2_decision_engine (req : LoanRequest) (s : SalaryResponse)
    (c : CreditResponse) (m rate : ℚ) :
    decisionReasons s c m = specReasons s c m ∧
    ((decide req s c m rate).status = "APPROVED" ↔
      decisionReasons s c m = []) ∧
    (∀ r0 rest, decisionReasons s c m = r0 :: rest →
      (decide req s c m rate).status = "DECLINED" ∧
      (decide req s c m rate).reason = r0 ∧
      (decide req s c m rate).reasons = r0 :: rest ∧
      (decide req s c m rate).monthlyPayment = m ∧
      (decide req s c m rate).annualInterest = rate) := by
  refine ⟨?_, ?_, ?_⟩
  · by_cases h1 : s.monthlySalary < 3 * m <;>
      by_cases h2 : c.creditScore < 600 <;>
      by_cases h3 : c.activeDefaults > 0 <;>
      by_cases h4 : c.activeLoans > 3 <;>
      simp [decisionReasons, specReasons, specRules, h1, h2, h3, h4]
  · cases hd : decisionReasons s c m with
    | nil => simp [decide, hd]
    | cons a l => simp [decide, hd]
  · intro r0 rest hd
    simp [decide, hd]

/-- C2 witness: scenario with salary 120000, credit score 540, no defaults,
one active loan, payment 1000: exactly the score rule fires. -/
theorem c2_decision_engine_witness :
    (decide ⟨"87654321", 50000, 12⟩ ⟨"87654321", 120000⟩
        ⟨"87654321", 540, 0, 1⟩ 1000 20).status = "DECLINED" ∧
    (decide ⟨"87654321", 50000, 12⟩ ⟨"87654321", 120000⟩
        ⟨"87654321", 540, 0, 1⟩ 1000 20).reason = reasonScore ∧
    (decide ⟨"87654321", 50000, 12⟩ ⟨"87654321", 120000⟩
        ⟨"87654321", 540, 0, 1⟩ 1000 20).reasons = [reasonScore] ∧
    (decide ⟨"87654321", 50000, 12⟩ ⟨"87654321", 120000⟩
        ⟨"87654321", 540, 0, 1⟩ 1000 20).monthlyPayment = 1000 ∧
    (decide ⟨"87654321", 50000, 12⟩ ⟨"87654321", 120000⟩
        ⟨"87654321", 540, 0, 1⟩ 1000 20).annualInterest = 20 :=
  (c2_decision_engine ⟨"87654321", 50000, 12⟩ ⟨"87654321", 120000⟩
      ⟨"87654321", 540, 0, 1⟩ 1000 20).2.2 reasonScore []
    (by norm_num [decisionReasons])

/-- C9: with `activeDefaults` at 0 producing reason list L, setting it to 1
(all else fixed) yields a list that contains L as a sublist (every element,
same relative order, nothing removed), contains "Active defaults present",
and is a permutation of L plus that one reason (nothing else added). -/
theorem c9_defaults_monotone (s : SalaryResponse) (c : CreditResponse)
    (m : ℚ) (h : c.activeDefaults = 0) :
    (decisionReasons s c m).Sublist
      (decisionReasons s { c with activeDefaults := 1 } m) ∧
    reasonDefaults ∈ decisionReasons s { c with activeDefaults := 1 } m ∧
    (decisionReasons s { c with activeDefaults := 1 } m).Perm
      (decisionReasons s c m ++ [reasonDefaults]) := by
  have insert_mid : ∀ (X Y : List String),
      (X ++ Y).Sublist (X ++ reasonDefaults :: Y) := by
    intro X Y
    exact List.Sublist.append_left (List.sublist_cons_self _ _) X
  have perm_mid : ∀ (X Y : List String),
      (X ++ reasonDefaults :: Y).Perm ((X ++ Y) ++ [reasonDefaults]) := by
    intro X Y
    rw [List.append_assoc]
    exact List.Perm.append_left X
      ((List.perm_append_singleton reasonDefaults Y).symm)
  have hL := decisionReasons_expand s c m
  have hL' := decisionReasons_expand s { c with activeDefaults := 1 } m
  rw [h] at hL
  simp only [show ¬((0 : Int) > 0) by norm_num, if_false,
    List.nil_append] at hL
  simp only [show ((1 : Int) > 0) by norm_num, if_true] at hL'
  rw [hL, hL', ← List.append_assoc, ← List.append_assoc]
  exact ⟨insert_mid _ _, by simp, perm_mid _ _⟩

/-- C9 witness: salary rule and loans rule firing, defaults flipped from 0
to 1. -/
theorem c9_defaults_monotone_witness :
    (decisionReasons ⟨"x", 1000⟩ ⟨"x", 700, 0, 5⟩ 1000).Sublist
      (decisionReasons ⟨"x", 1000⟩
        { CreditResponse.mk "x" 700 0 5 with activeDefaults := 1 } 1000) ∧
    reasonDefaults ∈ decisionReasons ⟨"x", 1000⟩
      { CreditResponse.mk "x" 700 0 5 with activeDefaults := 1 } 1000 ∧
    (decisionReasons ⟨"x", 1000⟩
        { CreditResponse.mk "x" 700 0 5 with activeDefaults := 1 } 1000).Perm
      (decisionReasons ⟨"x", 1000⟩ ⟨"x", 700, 0, 5⟩ 1000 ++
        [reasonDefaults]) :=
  c9_defaults_monotone ⟨"x", 1000⟩ ⟨"x", 700, 0, 5⟩ 1000 rfl

/-- C3: a validated application whose salary call fails with a non-404
error on all 3 attempts yields the 502 `salary_service_unavailable`
envelope (message, detail from the last error, request id); the credit
oracle is never consulted and the decision rules never run. -/
theorem c3_salary_unavailable (req : LoanRequest) (cfg : Config)
    (reqID : String) (sw : Nat → WireResult SalaryResponse)
    (cw : Nat → WireResult CreditResponse) (e0 e1 e2 : UpstreamError)
    (hval : ¬(req.nationalID = "" ∨ req.loanAmount ≤ 0 ∨ req.termMonths ≤ 0))
    (hcfg : ¬(cfg.salaryURL = "" ∨ cfg.creditURL = ""))
    (h0 : callSalaryAPI (sw 0) = .error e0)
    (h1 : callSalaryAPI (sw 1) = .error e1)
    (h2 : callSalaryAPI (sw 2) = .error e2)
    (_hn0 : e0.isNotFound = false) (_hn1 : e1.isNotFound = false)
    (hn2 : e2.isNotFound = false) :
    loanHandler "POST" (some req) cfg reqID sw cw =
      (.jsonError 502
        ⟨"salary_service_unavailable", "Failed to verify salary",
         some e2.errString, reqID⟩,
       ⟨3, 0, false⟩) := by
  have hret : withRetrySalary 3 (fun i => callSalaryAPI (sw i)) =
      (.error e2, 3) := retrySalary_all_fail _ e0 e1 e2 h0 h1 h2
  cases e2 with
  | httpError code body =>
    have hcode : ¬(code = 404) := by
      simpa [UpstreamError.isNotFound] using hn2
    simp [loanHandler, processLoan, hret, hval, hcfg, hcode]
  | transport d =>
    simp [loanHandler, processLoan, hret, hval, hcfg]

/-- C3 witness: a concrete request against an upstream that times out on
every attempt. -/
theorem c3_salary_unavailable_witness :
    loanHandler "POST" (some ⟨"12345678", 50000, 12⟩)
        ⟨"http://s", "http://c", none⟩ "rid"
        (fun _ => .netErr "timeout") (fun _ => .netErr "timeout") =
      (.jsonError 502
        ⟨"salary_service_unavailable", "Failed to verify salary",
         some (UpstreamError.transport "timeout").errString, "rid"⟩,
       ⟨3, 0, false⟩) :=
  c3_salary_unavailable ⟨"12345678", 50000, 12⟩ ⟨"http://s", "http://c", none⟩
    "rid" (fun _ => .netErr "timeout") (fun _ => .netErr "timeout")
    (.transport "timeout") (.transport "timeout") (.transport "timeout")
    (by decide) (by simp) rfl rfl rfl rfl rfl rfl

/-- C4: a validated application whose salary lookup yields 404 on every
attempt is DECLINED with reasons exactly ["Salary record not found"], both
upstream facts absent, the payment still computed from the requested amount
and term, and the application echoed; the credit oracle is never consulted
and the decision rules never run. -/
theorem c4_salary_not_found (req : LoanRequest) (cfg : Config)
    (reqID : String) (sw : Nat → WireResult SalaryResponse)
    (cw : Nat → WireResult CreditResponse) (b0 b1 b2 : String)
    (hval : ¬(req.nationalID = "" ∨ req.loanAmount ≤ 0 ∨ req.termMonths ≤ 0))
    (hcfg : ¬(cfg.salaryURL = "" ∨ cfg.creditURL = ""))
    (h0 : callSalaryAPI (sw 0) = .error (.httpError 404 b0))
    (h1 : callSalaryAPI (sw 1) = .error (.httpError 404 b1))
    (h2 : callSalaryAPI (sw 2) = .error (.httpError 404 b2)) :
    loanHandler "POST" (some req) cfg reqID sw cw =
      (.decision
        { status := "DECLINED"
          reason := "Salary record not found"
          reasons := ["Salary record not found"]
          monthlyPayment := amortizedMonthlyPayment req.loanAmount
            req.termMonths (effectiveRate cfg)
          annualInterest := effectiveRate cfg
          salaryEcho := none
          creditEcho := none
          applicationEcho := some req },
       ⟨3, 0, false⟩) := by
  have hret : withRetrySalary 3 (fun i => callSalaryAPI (sw i)) =
      (.error (.httpError 404 b2), 3) :=
    retrySalary_all_fail _ _ _ _ h0 h1 h2
  simp [loanHandler, processLoan, hret, hval, hcfg]

/-- C4 witness: a concrete unknown identifier, the salary mock answering
404 on every attempt. -/
theorem c4_salary_not_found_witness :
    loanHandler "POST" (some ⟨"00000000", 50000, 12⟩)
        ⟨"http://s", "http://c", none⟩ "rid"
        (fun _ => .resp 404 "Salary record not found" none)
        (fun _ => .netErr "unused") =
      (.decision
        { status := "DECLINED"
          reason := "Salary record not found"
          reasons := ["Salary record not found"]
          monthlyPayment := amortizedMonthlyPayment 50000 12
            (effectiveRate ⟨"http://s", "http://c", none⟩)
          annualInterest := effectiveRate ⟨"http://s", "http://c", none⟩
          salaryEcho := none
          creditEcho := none
          applicationEcho := some ⟨"00000000", 50000, 12⟩ },
       ⟨3, 0, false⟩) :=
  c4_salary_not_found ⟨"00000000", 50000, 12⟩ ⟨"http://s", "http://c", none⟩
    "rid" (fun _ => .resp 404 "Salary record not found" none)
    (fun _ => .netErr "unused") "Salary record not found"
    "Salary record not found" "Salary record not found"
    (by decide) (by simp) rfl rfl rfl

/-- C5: a validated application whose salary lookup succeeds and whose
credit lookup yields 404 on every attempt is DECLINED with reason "Credit
record not found", the resolved salary fact included, the credit fact
absent, and the decision rules never run. -/
theorem c5_credit_not_found (req : LoanRequest) (cfg : Config)
    (reqID : String) (sw : Nat → WireResult SalaryResponse)
    (cw : Nat → WireResult CreditResponse) (sal : SalaryResponse)
    (b0 b1 b2 : String)
    (hval : ¬(req.nationalID = "" ∨ req.loanAmount ≤ 0 ∨ req.termMonths ≤ 0))
    (hcfg : ¬(cfg.salaryURL = "" ∨ cfg.creditURL = ""))
    (hs : callSalaryAPI (sw 0) = .ok sal)
    (h0 : callCreditAPI (cw 0) = .error (.httpError 404 b0))
    (h1 : callCreditAPI (cw 1) = .error (.httpError 404 b1))
    (h2 : callCreditAPI (cw 2) = .error (.httpError 404 b2)) :
    loanHandler "POST" (some req) cfg reqID sw cw =
      (.decision
        { status := "DECLINED"
          reason := "Credit record not found"
          reasons := ["Credit record not found"]
          monthlyPayment := amortizedMonthlyPayment req.loanAmount
            req.termMonths (effectiveRate cfg)
          annualInterest := effectiveRate cfg
          salaryEcho := some sal
          creditEcho := none
          applicationEcho := some req },
       ⟨1, 3, false⟩) := by
  have hrs : withRetrySalary 3 (fun i => callSalaryAPI (sw i)) =
      (.ok sal, 1) := retrySalary_first_ok _ sal hs
  have hrc : withRetryCredit 3 (fun i => callCreditAPI (cw i)) =
      (.error (.httpError 404 b2), 3) :=
    retryCredit_all_fail _ _ _ _ h0 h1 h2
  simp [loanHandler, processLoan, hrs, hrc, hval, hcfg]

/-- C5 witness: a known salary identity whose credit record is missing. -/
theorem c5_credit_not_found_witness :
    loanHandler "POST" (some ⟨"12345678", 50000, 12⟩)
        ⟨"http://s", "http://c", none⟩ "rid"
        (fun _ => .resp 200 "" (some ⟨"12345678", 350000⟩))
        (fun _ => .resp 404 "Credit record not found" none) =
      (.decision
        { status := "DECLINED"
          reason := "Credit record not found"
          reasons := ["Credit record not found"]
          monthlyPayment := amortizedMonthlyPayment 50000 12
            (effectiveRate ⟨"http://s", "http://c", none⟩)
          annualInterest := effectiveRate ⟨"http://s", "http://c", none⟩
          salaryEcho := some ⟨"12345678", 350000⟩
          creditEcho := none
          applicationEcho := some ⟨"12345678", 50000, 12⟩ },
       ⟨1, 3, false⟩) :=
  c5_credit_not_found ⟨"12345678", 50000, 12⟩ ⟨"http://s", "http://c", none⟩
    "rid" (fun _ => .resp 200 "" (some ⟨"12345678", 350000⟩))
    (fun _ => .resp 404 "Credit record not found" none) ⟨"12345678", 350000⟩
    "Credit record not found" "Credit record not found"
    "Credit record not found" (by decide) (by simp) rfl rfl rfl rfl

/-- C8: with either upstream URL unset, a valid body yields the 500
`config_error` envelope with no upstream attempt made; body validation
still runs first, so an undecodable body or invalid fields yield 400 even
under missing configuration. -/
theorem c8_config_error (cfg : Config) (reqID : String)
    (sw : Nat → WireResult SalaryResponse)
    (cw : Nat → WireResult CreditResponse)
    (hcfg : cfg.salaryURL = "" ∨ cfg.creditURL = "") :
    (∀ req : LoanRequest,
      ¬(req.nationalID = "" ∨ req.loanAmount ≤ 0 ∨ req.termMonths ≤ 0) →
      loanHandler "POST" (some req) cfg reqID sw cw =
        (.jsonError 500
          ⟨"config_error", "Service URLs not configured", none, reqID⟩,
         ⟨0, 0, false⟩)) ∧
    loanHandler "POST" none cfg reqID sw cw =
      (.plainError 400 "Invalid request body", ⟨0, 0, false⟩) ∧
    (∀ req : LoanRequest,
      req.nationalID = "" ∨ req.loanAmount ≤ 0 ∨ req.termMonths ≤ 0 →
      loanHandler "POST" (some req) cfg reqID sw cw =
        (.plainError 400 "Missing or invalid fields", ⟨0, 0, false⟩)) := by
  refine ⟨?_, ?_, ?_⟩
  · intro req hval
    simp only [loanHandler]
    rw [if_neg (by simp)]
    rw [if_neg hval, if_pos hcfg]
  · simp [loanHandler]
  · intro req hval
    simp only [loanHandler]
    rw [if_neg (by simp)]
    rw [if_pos hval]

/-- C8 witness: missing salary URL with a valid body (500 config error) and
with an invalid body (400). -/
theorem c8_config_error_witness :
    loanHandler "POST" (some ⟨"12345678", 50000, 12⟩) ⟨"", "http://c", none⟩
        "rid" (fun _ => .netErr "unused") (fun _ => .netErr "unused") =
      (.jsonError 500
        ⟨"config_error", "Service URLs not configured", none, "rid"⟩,
       ⟨0, 0, false⟩) ∧
    loanHandler "POST" (some ⟨"", 50000, 12⟩) ⟨"", "http://c", none⟩
        "rid" (fun _ => .netErr "unused") (fun _ => .netErr "unused") =
      (.plainError 400 "Missing or invalid fields", ⟨0, 0, false⟩) :=
  ⟨(c8_config_error ⟨"", "http://c", none⟩ "rid" (fun _ => .netErr "unused")
      (fun _ => .netErr "unused") (Or.inl rfl)).1 ⟨"12345678", 50000, 12⟩
      (by decide),
   (c8_config_error ⟨"", "http://c", none⟩ "rid" (fun _ => .netErr "unused")
      (fun _ => .netErr "unused") (Or.inl rfl)).2.2 ⟨"", 50000, 12⟩
      (Or.inl rfl)⟩

/-- C10: when ANNUAL_INTEREST_PERCENT is set to a string that does not
parse, the effective rate is the default 20 and the handler behaves, on
every input, exactly as if the variable were unset: the parse failure is
invisible at the public interface. -/
theorem c10_bad_rate_ignored (method : String) (body : Option LoanRequest)
    (cfg : Config) (reqID : String) (sw : Nat → WireResult SalaryResponse)
    (cw : Nat → WireResult CreditResponse)
    (h : cfg.annualRateEnv = some none) :
    effectiveRate cfg = 20 ∧
    loanHandler method body cfg reqID sw cw =
      loanHandler method body { cfg with annualRateEnv := none } reqID sw
        cw := by
  have h20 : effectiveRate cfg = 20 := by simp [effectiveRate, h]
  have h20' : effectiveRate { cfg with annualRateEnv := none } = 20 := by
    simp [effectiveRate]
  exact ⟨h20, by simp [loanHandler, h20, h20']⟩

/-- C10 witness: concrete configuration with an unparseable rate value. -/
theorem c10_bad_rate_ignored_witness :
    effectiveRate ⟨"http://s", "http://c", some none⟩ = 20 ∧
    loanHandler "POST" (some ⟨"12345678", 50000, 12⟩)
        ⟨"http://s", "http://c", some none⟩ "rid"
        (fun _ => .netErr "down") (fun _ => .netErr "down") =
      loanHandler "POST" (some ⟨"12345678", 50000, 12⟩)
        ⟨"http://s", "http://c", none⟩ "rid"
        (fun _ => .netErr "down") (fun _ => .netErr "down") :=
  c10_bad_rate_ignored "POST" (some ⟨"12345678", 50000, 12⟩)
    ⟨"http://s", "http://c", some none⟩ "rid"
    (fun _ => .netErr "down") (fun _ => .netErr "down") rfl

/-- Salary wire oracle refuting C1: the first attempt answers 404, the
second answers 200 with a decoded record. -/
def c1SalaryWire : Nat → WireResult SalaryResponse := fun i =>
  if i = 0 then .resp 404 "Salary record not found" none
  else .resp 200 "" (some ⟨"12345678", 350000⟩)

/-- C1 counterexample: against `c1SalaryWire` the first attempt yields the
NotFound classification, yet `withRetrySalary` does not return it — it
retries, and the call succeeds on the second attempt.  NotFound is
therefore retried like any other failure. -/
theorem c1_not_found_is_retried :
    callSalaryAPI (c1SalaryWire 0) =
      .error (.httpError 404 "Salary record not found") ∧
    withRetrySalary 3 (fun i => callSalaryAPI (c1SalaryWire i)) =
      (.ok ⟨"12345678", 350000⟩, 2) := by
  exact ⟨rfl, rfl⟩

/-- C1 (amended): the retry helpers treat every failing attempt alike,
NotFound included: any first-attempt error (404 or not) is retried, a later
success is returned, and after 3 failing attempts the last error — which
may be the NotFound classification — is surfaced. -/
theorem c1_retry_semantics :
    (∀ (fn : Nat → Except UpstreamError SalaryResponse) (e : UpstreamError)
        (v : SalaryResponse), fn 0 = .error e → fn 1 = .ok v →
      withRetrySalary 3 fn = (.ok v, 2)) ∧
    (∀ (fn : Nat → Except UpstreamError SalaryResponse)
        (e0 e1 e2 : UpstreamError), fn 0 = .error e0 → fn 1 = .error e1 →
      fn 2 = .error e2 → withRetrySalary 3 fn = (.error e2, 3)) ∧
    (∀ (fn : Nat → Except UpstreamError CreditResponse) (e : UpstreamError)
        (v : CreditResponse), fn 0 = .error e → fn 1 = .ok v →
      withRetryCredit 3 fn = (.ok v, 2)) ∧
    (∀ (fn : Nat → Except UpstreamError CreditResponse)
        (e0 e1 e2 : UpstreamError), fn 0 = .error e0 → fn 1 = .error e1 →
      fn 2 = .error e2 → withRetryCredit 3 fn = (.error e2, 3)) :=
  ⟨retrySalary_fail_then_ok, retrySalary_all_fail,
   retryCredit_fail_then_ok, retryCredit_all_fail⟩

/-- C1 witness: the amended retry semantics at the concrete oracle of the
counterexample, and at an oracle failing with 404 on all attempts. -/
theorem c1_retry_semantics_witness :
    withRetrySalary 3 (fun i => callSalaryAPI (c1SalaryWire i)) =
      (.ok ⟨"12345678", 350000⟩, 2) ∧
    withRetrySalary 3
        (fun _ => .error (.httpError 404 "Salary record not found")) =
      (.error (.httpError 404 "Salary record not found"), 3) :=
  ⟨c1_retry_semantics.1 _ (.httpError 404 "Salary record not found")
      ⟨"12345678", 350000⟩ rfl rfl,
   c1_retry_semantics.2.1 _ _ _ _ rfl rfl rfl⟩

end LoanAPI
